import Mathlib

/-!
Shallow embedding of the `goruntime` telegraf input plugin
(`plugins/inputs/goruntime/metric.go` and `goruntime.go`).

Go machine integers are modelled as follows:
* `uint64` source counters (the `runtime.MemStats` fields) are `Nat`
  values; the Go conversion `int64(u)` is `toInt64`, which reduces
  modulo 2^64 into the signed 64-bit range.
* Go `int` fields of the decoded JSON payload (`cpuNum`, `threadNum`,
  `goroutineNum`, `cpuPercent`, `memPercent`) are already signed 64-bit
  values, so `int64(x)` is the identity; they are modelled as `Int`.
* `uint32` (`NumGC`) is a `Nat`; arithmetic on it wraps modulo 2^32.
* `float64` (`GCCPUFraction`) is only ever copied through identity
  conversions by this code, so its carrier is modelled as `Rat`;
  no floating-point operation is performed on it anywhere.

Go maps with string keys are modelled as association lists whose keys
are pairwise distinct, read through `List.lookup`; key order is
irrelevant to every property proved below.
-/

/-- Go `int64(u)` applied to an unsigned 64-bit value `u`: reduce
modulo 2^64, then reinterpret into the signed range. -/
def toInt64 (u : Nat) : Int :=
  if u % 2 ^ 64 < 2 ^ 63 then ((u % 2 ^ 64 : Nat) : Int)
  else ((u % 2 ^ 64 : Nat) : Int) - 2 ^ 64

/-- `runtime.MemStats`, restricted to the fields this plugin reads. -/
structure MemStats where
  Alloc : Nat
  TotalAlloc : Nat
  Sys : Nat
  Lookups : Nat
  Mallocs : Nat
  Frees : Nat
  HeapAlloc : Nat
  HeapSys : Nat
  HeapIdle : Nat
  HeapInuse : Nat
  HeapReleased : Nat
  HeapObjects : Nat
  StackInuse : Nat
  StackSys : Nat
  MSpanInuse : Nat
  MSpanSys : Nat
  MCacheInuse : Nat
  MCacheSys : Nat
  OtherSys : Nat
  GCSys : Nat
  NextGC : Nat
  LastGC : Nat
  PauseTotalNs : Nat
  PauseNs : Fin 256 → Nat
  NumGC : Nat
  GCCPUFraction : Rat

/-- The decoded JSON payload `RuntimeData` of `goruntime.go`. -/
structure RuntimeData where
  Serial : String
  CPUNum : Int
  ThreadNum : Int
  GoRoutineNum : Int
  CpuPercent : Int
  MemPercent : Int
  Memstats : MemStats

/-- The `Fields` struct of `metric.go`. -/
structure Fields where
  Serial : String
  NumCpu : Int
  NumThread : Int
  NumGoroutine : Int
  NumCgoCall : Int
  CpuPercent : Int
  MemPercent : Int
  Alloc : Int
  TotalAlloc : Int
  Sys : Int
  Lookups : Int
  Mallocs : Int
  Frees : Int
  HeapAlloc : Int
  HeapSys : Int
  HeapIdle : Int
  HeapInuse : Int
  HeapReleased : Int
  HeapObjects : Int
  StackInuse : Int
  StackSys : Int
  MSpanInuse : Int
  MSpanSys : Int
  MCacheInuse : Int
  MCacheSys : Int
  OtherSys : Int
  GCSys : Int
  NextGC : Int
  LastGC : Int
  PauseTotalNs : Int
  PauseNs : Int
  NumGC : Int
  GCCPUFraction : Rat
  Goarch : String
  Goos : String
  Version : String

/-- The Go zero value `Fields{}`. -/
def Fields.zero : Fields :=
  { Serial := "", NumCpu := 0, NumThread := 0, NumGoroutine := 0,
    NumCgoCall := 0, CpuPercent := 0, MemPercent := 0,
    Alloc := 0, TotalAlloc := 0, Sys := 0, Lookups := 0, Mallocs := 0,
    Frees := 0, HeapAlloc := 0, HeapSys := 0, HeapIdle := 0,
    HeapInuse := 0, HeapReleased := 0, HeapObjects := 0,
    StackInuse := 0, StackSys := 0, MSpanInuse := 0, MSpanSys := 0,
    MCacheInuse := 0, MCacheSys := 0, OtherSys := 0,
    GCSys := 0, NextGC := 0, LastGC := 0, PauseTotalNs := 0,
    PauseNs := 0, NumGC := 0, GCCPUFraction := 0,
    Goarch := "", Goos := "", Version := "" }

/-- `collectGCStats` of `metric.go`.  The Go index expression
`(m.NumGC+255)%256` is computed in `uint32` arithmetic, hence the
inner reduction modulo 2^32; the result is < 256 and indexes the
256-entry `PauseNs` circular buffer. -/
def collectGCStats (fields : Fields) (m : MemStats) : Fields :=
  { fields with
    GCSys := toInt64 m.GCSys
    NextGC := toInt64 m.NextGC
    LastGC := toInt64 m.LastGC
    PauseTotalNs := toInt64 m.PauseTotalNs
    PauseNs := toInt64 (m.PauseNs ⟨(m.NumGC + 255) % 2 ^ 32 % 256, by omega⟩)
    NumGC := toInt64 m.NumGC
    GCCPUFraction := m.GCCPUFraction }

/-- `collectMemStats` of `metric.go`. -/
def collectMemStats (fields : Fields) (m : MemStats) : Fields :=
  { fields with
    Alloc := toInt64 m.Alloc
    TotalAlloc := toInt64 m.TotalAlloc
    Sys := toInt64 m.Sys
    Lookups := toInt64 m.Lookups
    Mallocs := toInt64 m.Mallocs
    Frees := toInt64 m.Frees
    HeapAlloc := toInt64 m.HeapAlloc
    HeapSys := toInt64 m.HeapSys
    HeapIdle := toInt64 m.HeapIdle
    HeapInuse := toInt64 m.HeapInuse
    HeapReleased := toInt64 m.HeapReleased
    HeapObjects := toInt64 m.HeapObjects
    StackInuse := toInt64 m.StackInuse
    StackSys := toInt64 m.StackSys
    MSpanInuse := toInt64 m.MSpanInuse
    MSpanSys := toInt64 m.MSpanSys
    MCacheInuse := toInt64 m.MCacheInuse
    MCacheSys := toInt64 m.MCacheSys
    OtherSys := toInt64 m.OtherSys }

/-- A value of the Go `map[string]interface{}` returned by `Values`:
either an `int64` or a `float64`. -/
inductive GoValue where
  | i64 (v : Int)
  | f64 (v : Rat)
deriving DecidableEq, Repr

/-- `Fields.Tags` of `metric.go`: the single tag `serial`. -/
def Fields.Tags (f : Fields) : List (String × String) :=
  [("serial", f.Serial)]

/-- `Fields.Values` of `metric.go`: the fixed field map, in source
order. -/
def Fields.Values (f : Fields) : List (String × GoValue) :=
  [("cpu.count", .i64 f.NumCpu),
   ("cpu.goroutines", .i64 f.NumGoroutine),
   ("cpu.cgo_calls", .i64 f.NumCgoCall),
   ("cpu.thread", .i64 f.NumThread),
   ("cpu.percent", .i64 f.CpuPercent),
   ("mem.percent", .i64 f.MemPercent),
   ("mem.alloc", .i64 f.Alloc),
   ("mem.total", .i64 f.TotalAlloc),
   ("mem.sys", .i64 f.Sys),
   ("mem.lookups", .i64 f.Lookups),
   ("mem.malloc", .i64 f.Mallocs),
   ("mem.frees", .i64 f.Frees),
   ("mem.heap.alloc", .i64 f.HeapAlloc),
   ("mem.heap.sys", .i64 f.HeapSys),
   ("mem.heap.idle", .i64 f.HeapIdle),
   ("mem.heap.inuse", .i64 f.HeapInuse),
   ("mem.heap.released", .i64 f.HeapReleased),
   ("mem.heap.objects", .i64 f.HeapObjects),
   ("mem.stack.inuse", .i64 f.StackInuse),
   ("mem.stack.sys", .i64 f.StackSys),
   ("mem.stack.mspan_inuse", .i64 f.MSpanInuse),
   ("mem.stack.mspan_sys", .i64 f.MSpanSys),
   ("mem.stack.mcache_inuse", .i64 f.MCacheInuse),
   ("mem.stack.mcache_sys", .i64 f.MCacheSys),
   ("mem.othersys", .i64 f.OtherSys),
   ("mem.gc.sys", .i64 f.GCSys),
   ("mem.gc.next", .i64 f.NextGC),
   ("mem.gc.last", .i64 f.LastGC),
   ("mem.gc.pause_total", .i64 f.PauseTotalNs),
   ("mem.gc.pause", .i64 f.PauseNs),
   ("mem.gc.count", .i64 f.NumGC),
   ("mem.gc.cpu_fraction", .f64 f.GCCPUFraction)]

/-- `var DefaulMeasurement` of `goruntime.go` (source spelling kept). -/
def DefaulMeasurement : String := "goruntime_m"

/-- The `GoRuntime` plugin configuration struct (`goruntime.go`),
restricted to the fields the modelled code reads.  `clientNil` models
whether the cached `c.client` pointer is still nil. -/
structure GoRuntime where
  Urls : List String
  Method : String
  Measurement : String
  Username : String
  Password : String
  clientNil : Bool

/-- One call to `acc.AddGauge`: measurement name, field map, tag map. -/
structure Emission where
  measurement : String
  values : List (String × GoValue)
  tags : List (String × String)
deriving DecidableEq, Repr

/-- The field-construction part of `parse` in `goruntime.go`: start
from the zero `Fields{}`, copy the scalar payload fields, then run
`collectMemStats` and `collectGCStats`. -/
def mkFields (rd : RuntimeData) : Fields :=
  collectGCStats
    (collectMemStats
      { Fields.zero with
        Serial := rd.Serial
        NumCpu := rd.CPUNum
        NumGoroutine := rd.GoRoutineNum
        NumThread := rd.ThreadNum
        CpuPercent := rd.CpuPercent
        MemPercent := rd.MemPercent }
      rd.Memstats)
    rd.Memstats

/-- `parse` of `goruntime.go`: build the `Fields`, pick the
measurement name (configured value, or `DefaulMeasurement` when
empty), and emit `fields.Values()` with `fields.Tags()`. -/
def parse (c : GoRuntime) (rd : RuntimeData) : Emission :=
  let fields := mkFields rd
  let measurement := if c.Measurement = "" then DefaulMeasurement else c.Measurement
  { measurement := measurement
    values := fields.Values
    tags := fields.Tags }

/-- Result of decoding one HTTP response body as JSON: either a
`RuntimeData` payload or a decode error message. -/
inductive BodyDecode where
  | ok (data : RuntimeData)
  | malformed (msg : String)

/-- The outcome of one HTTP round trip for one endpoint, as seen by
`gatherURL`: either the transport layer failed (connection error or
timeout, the non-nil error of `client.Do`, and likewise a failed
`http.NewRequest`), or a response arrived with a status code and a
body. -/
inductive FetchOutcome where
  | transportError (msg : String)
  | response (status : Nat) (body : BodyDecode)

/-- Whether a status code is a 2xx success status (the HTTP notion the
spec appeals to; the code itself compares against exactly 200). -/
def is2xxStatus (s : Nat) : Bool := 200 ≤ s && s < 300

/-- The error message `gatherURL` builds for a rejected status code
(message text abridged: the Go code also interpolates
`http.StatusText` of each code). -/
def statusErrMsg (status : Nat) : String :=
  s!"Received status code {status}, expected 200"

/-- `gatherURL` of `goruntime.go`, with the network round trip
abstracted into its `FetchOutcome`: transport failure is returned as
an error; a response with status ≠ 200 is returned as a status error;
otherwise the body is decoded, a decode failure is returned as an
error, and a decoded payload is passed to `parse`, whose emission is
the single `acc.AddGauge` call. -/
def gatherURL (c : GoRuntime) (oc : FetchOutcome) : Except String Emission :=
  match oc with
  | .transportError msg => .error msg
  | .response status body =>
    if status ≠ 200 then
      .error (statusErrMsg status)
    else
      match body with
      | .malformed msg => .error msg
      | .ok data => .ok (parse c data)

/-- The accumulator state a poll cycle builds up: the labeled errors
added via `acc.AddError` and the measurements added via
`acc.AddGauge`. -/
structure Accumulated where
  errors : List String
  measurements : List Emission
deriving DecidableEq, Repr

/-- The fan-out loop of `Gather`: one `gatherURL` per configured URL
(the network environment is the function `fetch` from URL to
`FetchOutcome`); a failing endpoint contributes one error labeled with
its URL, a succeeding one contributes its emission.  The goroutines
write to the accumulator in nondeterministic order; this fold is one
linearization of that order, which is sound for every property proved
below (none depends on list order beyond per-URL content). -/
def gatherAll (c : GoRuntime) (fetch : String → FetchOutcome) :
    List String → Accumulated
  | [] => { errors := [], measurements := [] }
  | url :: rest =>
    let r := gatherAll c fetch rest
    match gatherURL c (fetch url) with
    | .error e => { r with errors := (s!"[url={url}]: " ++ e) :: r.errors }
    | .ok m => { r with measurements := m :: r.measurements }

/-- `Gather` of `goruntime.go`.  When the cached client is still nil,
the TLS configuration is built first (`tlsResult` abstracts the
external `c.ClientConfig.TLSConfig()` call); a TLS error is returned
from `Gather` itself.  Otherwise all endpoints are fetched, the wait
group barrier joins them, and `Gather` returns nil together with the
accumulated errors and measurements. -/
def Gather (c : GoRuntime) (tlsResult : Except String Unit)
    (fetch : String → FetchOutcome) : Except String Accumulated :=
  if c.clientNil then
    match tlsResult with
    | .error e => .error e
    | .ok _ => .ok (gatherAll c fetch c.Urls)
  else
    .ok (gatherAll c fetch c.Urls)

/-- An all-zero `MemStats`: every counter 0 and a freshly initialized
(all-zero) `PauseNs` circular buffer. -/
def memStatsZero : MemStats :=
  { Alloc := 0, TotalAlloc := 0, Sys := 0, Lookups := 0, Mallocs := 0,
    Frees := 0, HeapAlloc := 0, HeapSys := 0, HeapIdle := 0,
    HeapInuse := 0, HeapReleased := 0, HeapObjects := 0,
    StackInuse := 0, StackSys := 0, MSpanInuse := 0, MSpanSys := 0,
    MCacheInuse := 0, MCacheSys := 0, OtherSys := 0, GCSys := 0,
    NextGC := 0, LastGC := 0, PauseTotalNs := 0,
    PauseNs := fun _ => 0, NumGC := 0, GCCPUFraction := 0 }

/-- An all-zero payload: empty serial, zero counts, fresh `MemStats`. -/
def rdZero : RuntimeData :=
  { Serial := "", CPUNum := 0, ThreadNum := 0, GoRoutineNum := 0,
    CpuPercent := 0, MemPercent := 0, Memstats := memStatsZero }

lemma Values_lookup_pause (f : Fields) :
    f.Values.lookup "mem.gc.pause" = some (.i64 f.PauseNs) := rfl

lemma pause_index_mod_collapse (k : Nat) :
    (k + 255) % 2 ^ 32 % 256 = (k + 255) % 256 :=
  Nat.mod_mod_of_dvd _ (by norm_num)

lemma mkFields_PauseNs (rd : RuntimeData) :
    (mkFields rd).PauseNs =
      toInt64 (rd.Memstats.PauseNs
        ⟨(rd.Memstats.NumGC + 255) % 256, by omega⟩) := by
  simp only [mkFields, collectGCStats, collectMemStats]
  exact congrArg (fun i => toInt64 (rd.Memstats.PauseNs i))
    (Fin.ext (pause_index_mod_collapse _))

/-- A configuration with all-empty string fields and an already
constructed client. -/
def cfgDefault : GoRuntime :=
  { Urls := [], Method := "GET", Measurement := "", Username := "",
    Password := "", clientNil := false }

/-- The key list of the emitted field map, in the source order of
`Values`. -/
def outputKeys : List String :=
  ["cpu.count", "cpu.goroutines", "cpu.cgo_calls", "cpu.thread",
   "cpu.percent", "mem.percent",
   "mem.alloc", "mem.total", "mem.sys", "mem.lookups", "mem.malloc",
   "mem.frees",
   "mem.heap.alloc", "mem.heap.sys", "mem.heap.idle", "mem.heap.inuse",
   "mem.heap.released", "mem.heap.objects",
   "mem.stack.inuse", "mem.stack.sys", "mem.stack.mspan_inuse",
   "mem.stack.mspan_sys", "mem.stack.mcache_inuse",
   "mem.stack.mcache_sys", "mem.othersys",
   "mem.gc.sys", "mem.gc.next", "mem.gc.last", "mem.gc.pause_total",
   "mem.gc.pause", "mem.gc.count", "mem.gc.cpu_fraction"]

/-- The documented key set of the specification's section 4.1: the
`cpu.*`, `mem.*`, `mem.heap.*`, `mem.stack.*`, `mem.othersys` and
`mem.gc.*` keys. -/
def specSection41Keys : List String :=
  ["cpu.count", "cpu.thread", "cpu.goroutines", "cpu.percent",
   "mem.percent",
   "mem.alloc", "mem.total", "mem.sys", "mem.lookups", "mem.malloc",
   "mem.frees",
   "mem.heap.alloc", "mem.heap.sys", "mem.heap.idle", "mem.heap.inuse",
   "mem.heap.released", "mem.heap.objects",
   "mem.stack.inuse", "mem.stack.sys", "mem.stack.mspan_inuse",
   "mem.stack.mspan_sys", "mem.stack.mcache_inuse",
   "mem.stack.mcache_sys", "mem.othersys",
   "mem.gc.sys", "mem.gc.next", "mem.gc.last", "mem.gc.pause_total",
   "mem.gc.pause", "mem.gc.count", "mem.gc.cpu_fraction"]

lemma pl_alloc (c : GoRuntime) (rd : RuntimeData) :
    ((parse c rd).values).lookup "mem.alloc" =
      some (GoValue.i64 (toInt64 rd.Memstats.Alloc)) := rfl

lemma pl_total (c : GoRuntime) (rd : RuntimeData) :
    ((parse c rd).values).lookup "mem.total" =
      some (GoValue.i64 (toInt64 rd.Memstats.TotalAlloc)) := rfl

lemma pl_sys (c : GoRuntime) (rd : RuntimeData) :
    ((parse c rd).values).lookup "mem.sys" =
      some (GoValue.i64 (toInt64 rd.Memstats.Sys)) := rfl

lemma pl_lookups (c : GoRuntime) (rd : RuntimeData) :
    ((parse c rd).values).lookup "mem.lookups" =
      some (GoValue.i64 (toInt64 rd.Memstats.Lookups)) := rfl

lemma pl_malloc (c : GoRuntime) (rd : RuntimeData) :
    ((parse c rd).values).lookup "mem.malloc" =
      some (GoValue.i64 (toInt64 rd.Memstats.Mallocs)) := rfl

lemma pl_frees (c : GoRuntime) (rd : RuntimeData) :
    ((parse c rd).values).lookup "mem.frees" =
      some (GoValue.i64 (toInt64 rd.Memstats.Frees)) := rfl

lemma pl_heap_alloc (c : GoRuntime) (rd : RuntimeData) :
    ((parse c rd).values).lookup "mem.heap.alloc" =
      some (GoValue.i64 (toInt64 rd.Memstats.HeapAlloc)) := rfl

lemma pl_heap_sys (c : GoRuntime) (rd : RuntimeData) :
    ((parse c rd).values).lookup "mem.heap.sys" =
      some (GoValue.i64 (toInt64 rd.Memstats.HeapSys)) := rfl

lemma pl_heap_idle (c : GoRuntime) (rd : RuntimeData) :
    ((parse c rd).values).lookup "mem.heap.idle" =
      some (GoValue.i64 (toInt64 rd.Memstats.HeapIdle)) := rfl

lemma pl_heap_inuse (c : GoRuntime) (rd : RuntimeData) :
    ((parse c rd).values).lookup "mem.heap.inuse" =
      some (GoValue.i64 (toInt64 rd.Memstats.HeapInuse)) := rfl

lemma pl_heap_released (c : GoRuntime) (rd : RuntimeData) :
    ((parse c rd).values).lookup "mem.heap.released" =
      some (GoValue.i64 (toInt64 rd.Memstats.HeapReleased)) := rfl

lemma pl_heap_objects (c : GoRuntime) (rd : RuntimeData) :
    ((parse c rd).values).lookup "mem.heap.objects" =
      some (GoValue.i64 (toInt64 rd.Memstats.HeapObjects)) := rfl

lemma pl_stack_inuse (c : GoRuntime) (rd : RuntimeData) :
    ((parse c rd).values).lookup "mem.stack.inuse" =
      some (GoValue.i64 (toInt64 rd.Memstats.StackInuse)) := rfl

lemma pl_stack_sys (c : GoRuntime) (rd : RuntimeData) :
    ((parse c rd).values).lookup "mem.stack.sys" =
      some (GoValue.i64 (toInt64 rd.Memstats.StackSys)) := rfl

lemma pl_mspan_inuse (c : GoRuntime) (rd : RuntimeData) :
    ((parse c rd).values).lookup "mem.stack.mspan_inuse" =
      some (GoValue.i64 (toInt64 rd.Memstats.MSpanInuse)) := rfl

lemma pl_mspan_sys (c : GoRuntime) (rd : RuntimeData) :
    ((parse c rd).values).lookup "mem.stack.mspan_sys" =
      some (GoValue.i64 (toInt64 rd.Memstats.MSpanSys)) := rfl

lemma pl_mcache_inuse (c : GoRuntime) (rd : RuntimeData) :
    ((parse c rd).values).lookup "mem.stack.mcache_inuse" =
      some (GoValue.i64 (toInt64 rd.Memstats.MCacheInuse)) := rfl

lemma pl_mcache_sys (c : GoRuntime) (rd : RuntimeData) :
    ((parse c rd).values).lookup "mem.stack.mcache_sys" =
      some (GoValue.i64 (toInt64 rd.Memstats.MCacheSys)) := rfl

lemma pl_othersys (c : GoRuntime) (rd : RuntimeData) :
    ((parse c rd).values).lookup "mem.othersys" =
      some (GoValue.i64 (toInt64 rd.Memstats.OtherSys)) := rfl

lemma pl_cgo (c : GoRuntime) (rd : RuntimeData) :
    ((parse c rd).values).lookup "cpu.cgo_calls" =
      some (GoValue.i64 0) := rfl

lemma toInt64_small (u : Nat) (h : u < 2 ^ 63) : toInt64 u = (u : Int) := by
  unfold toInt64
  rw [Nat.mod_eq_of_lt (lt_trans h (by norm_num)), if_pos h]

lemma toInt64_wrap (u : Nat) (h1 : 2 ^ 63 ≤ u) (h2 : u < 2 ^ 64) :
    toInt64 u = (u : Int) - 2 ^ 64 := by
  unfold toInt64
  rw [Nat.mod_eq_of_lt h2, if_neg (by omega)]

/-- C1: for every payload with GC count `k`, the emitted
`mem.gc.pause` field is the `PauseNs` circular-buffer entry at
position `(k + 255) % 256`; in particular `k = 5` reads index 4,
`k = 0` reads index 255, and on a freshly initialized (all-zero)
buffer with `k = 0` the value 0 is reported, not an error. -/
theorem C1_gc_pause_index :
    (∀ rd : RuntimeData,
      ((mkFields rd).Values).lookup "mem.gc.pause" =
        some (GoValue.i64 (toInt64 (rd.Memstats.PauseNs
          ⟨(rd.Memstats.NumGC + 255) % 256, by omega⟩)))) ∧
    (5 + 255) % 256 = 4 ∧ (0 + 255) % 256 = 255 ∧
    ((mkFields rdZero).Values).lookup "mem.gc.pause" = some (GoValue.i64 0) := by
  refine ⟨fun rd => ?_, by norm_num, by norm_num, rfl⟩
  rw [Values_lookup_pause, mkFields_PauseNs]

/-- C2: the output field map has the same fixed key list for every
configuration and every payload, and every key of the documented key
set of the specification's section 4.1 is among the emitted keys. -/
theorem C2_fixed_key_set :
    (∀ (c : GoRuntime) (rd : RuntimeData),
      ((parse c rd).values).map Prod.fst = outputKeys) ∧
    specSection41Keys ⊆ outputKeys := by
  refine ⟨fun c rd => rfl, ?_⟩
  decide

/-- C5: the emitted measurement name is the configured one when a
measurement name is configured, and the literal `goruntime_m` when the
configured name is empty. -/
theorem C5_measurement_name (c : GoRuntime) (rd : RuntimeData) :
    (c.Measurement = "" → (parse c rd).measurement = "goruntime_m") ∧
    (c.Measurement ≠ "" → (parse c rd).measurement = c.Measurement) := by
  constructor <;> intro h <;> simp [parse, DefaulMeasurement, h]

/-- A configuration with measurement name `custom_m`. -/
def cfgCustom : GoRuntime := { cfgDefault with Measurement := "custom_m" }

theorem C5_measurement_name_witness :
    (cfgCustom.Measurement ≠ "" ∧
      (parse cfgCustom rdZero).measurement = "custom_m") ∧
    (cfgDefault.Measurement = "" ∧
      (parse cfgDefault rdZero).measurement = "goruntime_m") :=
  ⟨⟨by decide, (C5_measurement_name cfgCustom rdZero).2 (by decide)⟩,
   ⟨rfl, (C5_measurement_name cfgDefault rdZero).1 rfl⟩⟩

/-- C6: the emitted tag map is exactly the single tag `serial` holding
the payload's serial string verbatim; an empty serial is passed
through unchanged. -/
theorem C6_serial_tag :
    (∀ (c : GoRuntime) (rd : RuntimeData),
      (parse c rd).tags = [("serial", rd.Serial)]) ∧
    (parse cfgDefault { rdZero with Serial := "" }).tags = [("serial", "")] :=
  ⟨fun _ _ => rfl, rfl⟩

/-- C7: the widening conversion is lossless on every scalar
passthrough field whose source value fits in 32 bits: the emitted
64-bit field equals the source value unchanged. -/
theorem C7_widening_lossless (c : GoRuntime) (rd : RuntimeData) :
    (rd.Memstats.Alloc < 2 ^ 32 →
      ((parse c rd).values).lookup "mem.alloc" =
        some (GoValue.i64 rd.Memstats.Alloc)) ∧
    (rd.Memstats.TotalAlloc < 2 ^ 32 →
      ((parse c rd).values).lookup "mem.total" =
        some (GoValue.i64 rd.Memstats.TotalAlloc)) ∧
    (rd.Memstats.Sys < 2 ^ 32 →
      ((parse c rd).values).lookup "mem.sys" =
        some (GoValue.i64 rd.Memstats.Sys)) ∧
    (rd.Memstats.Lookups < 2 ^ 32 →
      ((parse c rd).values).lookup "mem.lookups" =
        some (GoValue.i64 rd.Memstats.Lookups)) ∧
    (rd.Memstats.Mallocs < 2 ^ 32 →
      ((parse c rd).values).lookup "mem.malloc" =
        some (GoValue.i64 rd.Memstats.Mallocs)) ∧
    (rd.Memstats.Frees < 2 ^ 32 →
      ((parse c rd).values).lookup "mem.frees" =
        some (GoValue.i64 rd.Memstats.Frees)) ∧
    (rd.Memstats.HeapAlloc < 2 ^ 32 →
      ((parse c rd).values).lookup "mem.heap.alloc" =
        some (GoValue.i64 rd.Memstats.HeapAlloc)) ∧
    (rd.Memstats.HeapSys < 2 ^ 32 →
      ((parse c rd).values).lookup "mem.heap.sys" =
        some (GoValue.i64 rd.Memstats.HeapSys)) ∧
    (rd.Memstats.HeapIdle < 2 ^ 32 →
      ((parse c rd).values).lookup "mem.heap.idle" =
        some (GoValue.i64 rd.Memstats.HeapIdle)) ∧
    (rd.Memstats.HeapInuse < 2 ^ 32 →
      ((parse c rd).values).lookup "mem.heap.inuse" =
        some (GoValue.i64 rd.Memstats.HeapInuse)) ∧
    (rd.Memstats.HeapReleased < 2 ^ 32 →
      ((parse c rd).values).lookup "mem.heap.released" =
        some (GoValue.i64 rd.Memstats.HeapReleased)) ∧
    (rd.Memstats.HeapObjects < 2 ^ 32 →
      ((parse c rd).values).lookup "mem.heap.objects" =
        some (GoValue.i64 rd.Memstats.HeapObjects)) ∧
    (rd.Memstats.StackInuse < 2 ^ 32 →
      ((parse c rd).values).lookup "mem.stack.inuse" =
        some (GoValue.i64 rd.Memstats.StackInuse)) ∧
    (rd.Memstats.StackSys < 2 ^ 32 →
      ((parse c rd).values).lookup "mem.stack.sys" =
        some (GoValue.i64 rd.Memstats.StackSys)) ∧
    (rd.Memstats.MSpanInuse < 2 ^ 32 →
      ((parse c rd).values).lookup "mem.stack.mspan_inuse" =
        some (GoValue.i64 rd.Memstats.MSpanInuse)) ∧
    (rd.Memstats.MSpanSys < 2 ^ 32 →
      ((parse c rd).values).lookup "mem.stack.mspan_sys" =
        some (GoValue.i64 rd.Memstats.MSpanSys)) ∧
    (rd.Memstats.MCacheInuse < 2 ^ 32 →
      ((parse c rd).values).lookup "mem.stack.mcache_inuse" =
        some (GoValue.i64 rd.Memstats.MCacheInuse)) ∧
    (rd.Memstats.MCacheSys < 2 ^ 32 →
      ((parse c rd).values).lookup "mem.stack.mcache_sys" =
        some (GoValue.i64 rd.Memstats.MCacheSys)) ∧
    (rd.Memstats.OtherSys < 2 ^ 32 →
      ((parse c rd).values).lookup "mem.othersys" =
        some (GoValue.i64 rd.Memstats.OtherSys)) :=
  ⟨fun h => by rw [pl_alloc, toInt64_small _ (lt_trans h (by norm_num))],
   fun h => by rw [pl_total, toInt64_small _ (lt_trans h (by norm_num))],
   fun h => by rw [pl_sys, toInt64_small _ (lt_trans h (by norm_num))],
   fun h => by rw [pl_lookups, toInt64_small _ (lt_trans h (by norm_num))],
   fun h => by rw [pl_malloc, toInt64_small _ (lt_trans h (by norm_num))],
   fun h => by rw [pl_frees, toInt64_small _ (lt_trans h (by norm_num))],
   fun h => by rw [pl_heap_alloc, toInt64_small _ (lt_trans h (by norm_num))],
   fun h => by rw [pl_heap_sys, toInt64_small _ (lt_trans h (by norm_num))],
   fun h => by rw [pl_heap_idle, toInt64_small _ (lt_trans h (by norm_num))],
   fun h => by rw [pl_heap_inuse, toInt64_small _ (lt_trans h (by norm_num))],
   fun h => by rw [pl_heap_released, toInt64_small _ (lt_trans h (by norm_num))],
   fun h => by rw [pl_heap_objects, toInt64_small _ (lt_trans h (by norm_num))],
   fun h => by rw [pl_stack_inuse, toInt64_small _ (lt_trans h (by norm_num))],
   fun h => by rw [pl_stack_sys, toInt64_small _ (lt_trans h (by norm_num))],
   fun h => by rw [pl_mspan_inuse, toInt64_small _ (lt_trans h (by norm_num))],
   fun h => by rw [pl_mspan_sys, toInt64_small _ (lt_trans h (by norm_num))],
   fun h => by rw [pl_mcache_inuse, toInt64_small _ (lt_trans h (by norm_num))],
   fun h => by rw [pl_mcache_sys, toInt64_small _ (lt_trans h (by norm_num))],
   fun h => by rw [pl_othersys, toInt64_small _ (lt_trans h (by norm_num))]⟩

/-- A payload whose `HeapObjects` is the largest 32-bit value. -/
def rdHeapObj : RuntimeData :=
  { rdZero with Memstats := { memStatsZero with HeapObjects := 4294967295 } }

theorem C7_widening_lossless_witness :
    rdHeapObj.Memstats.HeapObjects < 2 ^ 32 ∧
    ((parse cfgDefault rdHeapObj).values).lookup "mem.heap.objects" =
      some (GoValue.i64 4294967295) :=
  ⟨by decide,
   (C7_widening_lossless cfgDefault
     rdHeapObj).2.2.2.2.2.2.2.2.2.2.2.1 (by decide)⟩

/-- C8: the transform is deterministic: it emits exactly one record,
and two applications to equal payloads, under configurations agreeing
on the measurement name (the only configuration field the transform
reads), yield equal records, equal field maps and equal tag maps. -/
theorem C8_deterministic (c1 c2 : GoRuntime) (rd1 rd2 : RuntimeData)
    (hm : c1.Measurement = c2.Measurement) (hrd : rd1 = rd2) :
    parse c1 rd1 = parse c2 rd2 ∧
    (parse c1 rd1).values = (parse c2 rd2).values ∧
    (parse c1 rd1).tags = (parse c2 rd2).tags := by
  subst hrd
  have h : parse c1 rd1 = parse c2 rd1 := by simp [parse, hm]
  exact ⟨h, congrArg Emission.values h, congrArg Emission.tags h⟩

/-- A configuration differing from `cfgDefault` in every field other
than the measurement name. -/
def cfgOther : GoRuntime :=
  { Urls := ["http://x"], Method := "POST", Measurement := "",
    Username := "u", Password := "p", clientNil := true }

theorem C8_deterministic_witness :
    parse cfgDefault rdZero = parse cfgOther rdZero ∧
    (parse cfgDefault rdZero).values = (parse cfgOther rdZero).values ∧
    (parse cfgDefault rdZero).tags = (parse cfgOther rdZero).tags :=
  C8_deterministic cfgDefault cfgOther rdZero rdZero rfl rfl

/-- C9: every emitted record carries the key `cpu.cgo_calls` with
value 0 (the `NumCgoCall` field is never assigned, so it keeps the Go
zero value), and that key is absent from the documented key set of the
specification's section 4.1 while present among the emitted keys. -/
theorem C9_cgo_calls_always_zero :
    (∀ (c : GoRuntime) (rd : RuntimeData),
      ((parse c rd).values).lookup "cpu.cgo_calls" =
        some (GoValue.i64 0)) ∧
    "cpu.cgo_calls" ∉ specSection41Keys ∧ "cpu.cgo_calls" ∈ outputKeys :=
  ⟨fun c rd => pl_cgo c rd, by decide, by decide⟩

/-- C10: the unsigned-to-signed 64-bit conversion wraps: when a source
counter is at least 2^63 (and below 2^64), the emitted `int64` field
is the source value reduced by 2^64, which is negative and not equal
to the source value. -/
theorem C10_wrapping (c : GoRuntime) (rd : RuntimeData)
    (h1 : 2 ^ 63 ≤ rd.Memstats.Alloc) (h2 : rd.Memstats.Alloc < 2 ^ 64) :
    ((parse c rd).values).lookup "mem.alloc" =
      some (GoValue.i64 ((rd.Memstats.Alloc : Int) - 2 ^ 64)) ∧
    (rd.Memstats.Alloc : Int) - 2 ^ 64 < 0 ∧
    (rd.Memstats.Alloc : Int) - 2 ^ 64 ≠ (rd.Memstats.Alloc : Int) := by
  refine ⟨?_, by omega, by omega⟩
  rw [pl_alloc, toInt64_wrap _ h1 h2]

/-- A payload whose `Alloc` counter is the largest `uint64` value. -/
def rdAllocMax : RuntimeData :=
  { rdZero with
    Memstats := { memStatsZero with Alloc := 18446744073709551615 } }

theorem C10_wrapping_witness :
    2 ^ 63 ≤ rdAllocMax.Memstats.Alloc ∧
    rdAllocMax.Memstats.Alloc < 2 ^ 64 ∧
    ((parse cfgDefault rdAllocMax).values).lookup "mem.alloc" =
      some (GoValue.i64 (-1)) := by
  refine ⟨by decide, by decide, ?_⟩
  rw [(C10_wrapping cfgDefault rdAllocMax (by decide) (by decide)).1]
  decide

/-- The emission of one per-endpoint attempt, when it succeeded. -/
def exceptToOption : Except String Emission → Option Emission
  | .ok m => some m
  | .error _ => none

/-- The labeled error of one per-endpoint attempt, when it failed. -/
def labeledError (url : String) : Except String Emission → Option String
  | .ok _ => none
  | .error e => some (s!"[url={url}]: " ++ e)

lemma gatherAll_errors_eq (c : GoRuntime) (fetch : String → FetchOutcome)
    (urls : List String) :
    (gatherAll c fetch urls).errors =
      urls.filterMap (fun u => labeledError u (gatherURL c (fetch u))) := by
  induction urls with
  | nil => rfl
  | cons url rest ih =>
    simp only [gatherAll, List.filterMap_cons]
    cases h : gatherURL c (fetch url) <;> simp [h, labeledError, ih]

lemma gatherAll_measurements_eq (c : GoRuntime)
    (fetch : String → FetchOutcome) (urls : List String) :
    (gatherAll c fetch urls).measurements =
      urls.filterMap (fun u => exceptToOption (gatherURL c (fetch u))) := by
  induction urls with
  | nil => rfl
  | cons url rest ih =>
    simp only [gatherAll, List.filterMap_cons]
    cases h : gatherURL c (fetch url) <;> simp [h, exceptToOption, ih]

/-- A configuration whose cached client is still nil, so `Gather`
builds the TLS configuration first. -/
def cfgTlsBroken : GoRuntime :=
  { cfgDefault with clientNil := true, Urls := ["http://a"] }

/-- C3 counterexample: a configuration whose client is uninitialized
and whose TLS configuration fails makes `Gather` return that error —
before any endpoint is attempted, and even though every endpoint
outcome here would succeed — so `Gather` does not return a non-error
result for every configuration. -/
theorem C3_counterexample :
    Gather cfgTlsBroken (Except.error "invalid TLS configuration")
      (fun _ => FetchOutcome.response 200 (BodyDecode.ok rdZero)) =
      Except.error "invalid TLS configuration" := rfl

/-- C3 (amended): provided the cached HTTP client is already
initialized or the TLS configuration succeeds, a poll cycle always
completes with a non-error result; each failing endpoint contributes
exactly one error labeled with its URL and cause, the succeeding
endpoints' emissions are collected unaffected, and a cycle with zero
successes still returns normally with no measurements beyond the
errors. -/
theorem C3_cycle_completes (c : GoRuntime) (tls : Except String Unit)
    (fetch : String → FetchOutcome)
    (h : c.clientNil = false ∨ tls = Except.ok ()) :
    ∃ acc : Accumulated,
      Gather c tls fetch = Except.ok acc ∧
      acc.errors =
        c.Urls.filterMap (fun u => labeledError u (gatherURL c (fetch u))) ∧
      acc.measurements =
        c.Urls.filterMap (fun u => exceptToOption (gatherURL c (fetch u))) := by
  refine ⟨gatherAll c fetch c.Urls, ?_, gatherAll_errors_eq c fetch c.Urls,
    gatherAll_measurements_eq c fetch c.Urls⟩
  rcases h with h | h
  · simp [Gather, h]
  · subst h
    by_cases hc : c.clientNil <;> simp [Gather, hc]

/-- Three endpoints, of which `http://b` answers with a 500 status and
the others succeed: the spec's partial-failure scenario. -/
def fetch3 : String → FetchOutcome := fun u =>
  if u = "http://b" then FetchOutcome.response 500 (BodyDecode.malformed "")
  else FetchOutcome.response 200 (BodyDecode.ok rdZero)

/-- A configuration polling three endpoints with the client already
constructed. -/
def cfg3 : GoRuntime :=
  { cfgDefault with Urls := ["http://a", "http://b", "http://c"] }

theorem C3_cycle_completes_witness :
    cfg3.clientNil = false ∧
    ∃ acc : Accumulated,
      Gather cfg3 (Except.ok ()) fetch3 = Except.ok acc ∧
      acc.errors =
        cfg3.Urls.filterMap
          (fun u => labeledError u (gatherURL cfg3 (fetch3 u))) ∧
      acc.measurements =
        cfg3.Urls.filterMap
          (fun u => exceptToOption (gatherURL cfg3 (fetch3 u))) :=
  ⟨rfl, C3_cycle_completes cfg3 (Except.ok ()) fetch3 (Or.inl rfl)⟩

/-- C4 counterexample: status 204 is a 2xx success status, yet
`gatherURL` rejects the response with a status-mismatch error instead
of proceeding to decode the (well-formed) body, so "error if and only
if not 2xx" fails. -/
theorem C4_counterexample :
    is2xxStatus 204 = true ∧
    gatherURL cfgDefault (FetchOutcome.response 204 (BodyDecode.ok rdZero)) =
      Except.error (statusErrMsg 204) := ⟨rfl, rfl⟩

/-- C4 (amended): a response is captured as a status-mismatch error
report if and only if its status code is not exactly 200; on a 200
status the fetch proceeds to decode the body (emitting the parsed
record on a well-formed body, a decode error otherwise). -/
theorem C4_status_gate (c : GoRuntime) (status : Nat) (body : BodyDecode) :
    (status ≠ 200 →
      gatherURL c (FetchOutcome.response status body) =
        Except.error (statusErrMsg status)) ∧
    (status = 200 →
      gatherURL c (FetchOutcome.response status body) =
        match body with
        | .malformed msg => Except.error msg
        | .ok data => Except.ok (parse c data)) := by
  constructor <;> intro h <;> simp [gatherURL, h]

theorem C4_status_gate_witness :
    ((500 : Nat) ≠ 200 ∧
      gatherURL cfgDefault (FetchOutcome.response 500 (BodyDecode.ok rdZero)) =
        Except.error (statusErrMsg 500)) ∧
    ((200 : Nat) = 200 ∧
      gatherURL cfgDefault (FetchOutcome.response 200 (BodyDecode.ok rdZero)) =
        Except.ok (parse cfgDefault rdZero)) :=
  ⟨⟨by decide, (C4_status_gate cfgDefault 500 (BodyDecode.ok rdZero)).1 (by decide)⟩,
   ⟨rfl, (C4_status_gate cfgDefault 200 (BodyDecode.ok rdZero)).2 rfl⟩⟩
